import Mathlib

/-!
# Verification of the RSecretary message-intent pipeline and task-dispatch engine

A shallow embedding, in Lean 4, of the core of the RSecretary repository:
the todo task handler (`src/tasks/todo.py`), the intent pipeline
(`src/core/message_processor.py`, `src/ai/gemini_client.py`), the task
dispatcher (`src/core/task_dispatcher.py`, `src/tasks/base_task.py`) and the
daily-report scheduler (`src/core/scheduler.py`).

Modelling conventions:
* Python dict-shaped records become a `Record` structure whose fields are
  `Option String` (`none` = key absent); `dict.get(k, d)` becomes
  `Option.getD`, and Python truthiness of a string-or-None value becomes
  `truthy` (`none` and `""` are falsy).
* The external Completion Oracle and the external `json.loads` are
  uninterpreted parameters (`Except`-valued resp. `Option`-valued functions):
  the code treats both as black boxes and the embedding quantifies over
  their behaviour.
* Record-store writes are tracked explicitly: update operations return the
  list of `(page_id, properties)` writes they performed, so "never writes"
  is a provable statement.
* Confidence values (Python floats compared against literals 0.6 / 0.7 and
  set to 0.5 / 0.8) are modelled as rationals; monetary amounts likewise.
* A caught Python exception is modelled by the `Except` error branch of the
  computation it aborts.
-/

namespace RSecretary

/-! ## Python-style string helpers -/

/-- Python `str.lower()` (ASCII case folding; the titles compared by the code
are either ASCII or Chinese, and Chinese has no case). -/
def pyLower (s : String) : String := String.mk (s.toList.map Char.toLower)

/-- Char-list infix test: `needle` occurs contiguously in `hay`. -/
def listIsInfix (needle : List Char) : List Char → Bool
  | [] => needle.isEmpty
  | c :: t => needle.isPrefixOf (c :: t) || listIsInfix needle t

/-- Python `needle in hay` substring test on strings (an empty needle is
always contained). -/
def isSubstrOf (needle hay : String) : Bool :=
  listIsInfix needle.toList hay.toList

/-- Python `str.strip()`: drop whitespace from both ends. -/
def pyStrip (s : String) : String :=
  String.mk (((s.toList.dropWhile Char.isWhitespace).reverse.dropWhile
    Char.isWhitespace).reverse)

/-- Python `str.strip(c)` for a single character `c`. -/
def pyStripChar (c : Char) (s : String) : String :=
  String.mk (((s.toList.dropWhile (· == c)).reverse.dropWhile (· == c)).reverse)

/-- Python `sep.join(parts)`. -/
def pyJoin (sep : String) : List String → String
  | [] => ""
  | [x] => x
  | x :: y :: xs => x ++ sep ++ pyJoin sep (y :: xs)

/-- Python string `<` (lexicographic by code point) on char lists. -/
def strLtAux : List Char → List Char → Bool
  | [], [] => false
  | [], _ :: _ => true
  | _ :: _, [] => false
  | c :: cs, d :: ds => c.toNat < d.toNat || (c.toNat == d.toNat && strLtAux cs ds)

/-- Python string `<` (lexicographic by code point). -/
def strLt (a b : String) : Bool := strLtAux a.toList b.toList

/-- Python string `<=` (lexicographic by code point). -/
def strLe (a b : String) : Bool := a == b || strLt a b

/-! ## Records and task results -/

/-- A record returned by `NotionClient.query_database`: a Python dict; the
fields below are the keys the core reads.  `none` models an absent key. -/
structure Record where
  id : Option String := none
  title : Option String := none          -- "标题"
  status : Option String := none         -- "状态"
  priority : Option String := none       -- "优先级"
  dueDate : Option String := none        -- "截止日期"
  category : Option String := none       -- "分类"
  description : Option String := none    -- "描述"
  url : Option String := none
  createdTime : Option String := none    -- "创建时间"
  editedTime : Option String := none     -- "最后编辑时间"
  rname : Option String := none          -- "名称" (subscription)
  recDate : Option String := none        -- "日期" (accounting)
  amount : Option ℚ := none              -- "金额" (accounting)
  rtype : Option String := none          -- "类型" (accounting)
deriving Repr, DecidableEq

/-- Python `d.get(k, default)` for an optional string field. -/
def pyGet (o : Option String) (d : String) : String := o.getD d

/-- Python truthiness of a string-or-None value (`if page_id:`):
`None` and `""` are falsy. -/
def truthy : Option String → Bool
  | none => false
  | some s => s ≠ ""

/-- A value stored in a `TaskResult.data` dict. -/
inductive DVal where
  | s (v : String)
  | n (v : Nat)
  | lst (v : List String)
  | recs (v : List Record)
deriving Repr, DecidableEq

/-- `TaskResult` from `src/tasks/base_task.py` (the wall-clock `timestamp`
field is omitted: no claim mentions it). -/
structure TaskResult where
  success : Bool
  data : List (String × DVal) := []
  message : String := ""
  error : Option String := none
deriving Repr, DecidableEq

/-- `result.data.get("records", [])`. -/
def getRecords (data : List (String × DVal)) : List Record :=
  match data.lookup "records" with
  | some (.recs l) => l
  | _ => []

/-! ## Todo handler: fuzzy update-target resolution (`src/tasks/todo.py`) -/

/-- The candidate filter of `TodoTask.update_by_name` (todo.py lines 340-344):
keep the records whose lower-cased title contains the lower-cased task name
or is contained in it. -/
def matchedTasks (taskName : String) (allTodos : List Record) : List Record :=
  allTodos.filter fun todo =>
    let title := pyLower (pyGet todo.title "")
    isSubstrOf (pyLower taskName) title || isSubstrOf title (pyLower taskName)

/-- One line of the disambiguation list (todo.py lines 370-374), with 1-based
numbering from `enumerate(matched_tasks, 1)`. -/
def candidateLinesAux : Nat → List Record → List String
  | _, [] => []
  | i, t :: ts =>
    (toString i ++ ". " ++ pyGet t.title "" ++ " (" ++ pyGet t.status ""
      ++ ", 截止: " ++ pyGet t.dueDate "" ++ ")") :: candidateLinesAux (i + 1) ts

def candidateLines (matched : List Record) : List String :=
  candidateLinesAux 1 matched

/-- The failed `TaskResult` returned when several candidates match and the AI
selection produced nothing (todo.py lines 376-380): it enumerates every
matched candidate. -/
def disambiguationResult (taskName : String) (matched : List Record) : TaskResult :=
  { success := false
    error := some "多个匹配任务"
    message := "找到多个包含「" ++ taskName ++ "」的任务，请明确指定：\n"
      ++ pyJoin "\n" (candidateLines matched) }

/-- A Python exception, as far as the embedding needs to distinguish them. -/
inductive PyErr where
  | unboundLocal (name : String)
  | other (msg : String)
deriving Repr, DecidableEq

/-- The construction of the AI-selection prompt
(`TodoTask._select_best_match_with_ai`, todo.py lines 496-522).  The function
body contains `import json` at line 527, which makes `json` a *function-local*
name throughout the body; the f-string built at line 496 interpolates
`json.dumps(candidates_info, ...)` at line 506 and is evaluated before
that import statement runs, so evaluating the prompt raises
`UnboundLocalError` on every call. -/
def buildSelectionPrompt (taskName : String) (matched : List Record)
    (newStatus newPriority newDate : String) : Except PyErr String :=
  .error (.unboundLocal "json")

/-- The parsed answer of the selection oracle: `selected_index` (a Python int,
possibly `-1`) and `confidence`, or `none` when no JSON object could be read
from the response (todo.py lines 536-546). -/
abbrev SelAnswer := Option (Int × ℚ)

/-- `TodoTask._select_best_match_with_ai` (todo.py lines 460-562).  The
enclosing `try` catches the prompt-construction error and returns `None`
(lines 558-560); the acceptance test of lines 550-556 requires
`selected_index >= 0`, `selected_index < len(matched_tasks)` and
`confidence >= 0.7`. -/
def selectBestMatchWithAI (sel : SelAnswer) (taskName : String)
    (matched : List Record) (newStatus newPriority newDate : String) : Option Record :=
  match buildSelectionPrompt taskName matched newStatus newPriority newDate with
  | .error _ => none
  | .ok _ =>
    match sel with
    | none => none
    | some (idx, conf) =>
      if 0 ≤ idx ∧ idx < (matched.length : Int) ∧ 7 / 10 ≤ conf then
        matched.get? idx.toNat
      else
        none

/-- Gregorian leap year, as `datetime.strptime` uses. -/
def isLeap (y : Nat) : Bool := y % 4 == 0 && (y % 100 != 0 || y % 400 == 0)

def daysInMonth (y m : Nat) : Nat :=
  if m = 2 then (if isLeap y then 29 else 28)
  else if m = 4 ∨ m = 6 ∨ m = 9 ∨ m = 11 then 30
  else 31

/-- Success of `datetime.strptime(s, '%Y-%m-%d')` for a string already known
to have length 10: four year digits, a dash, two month digits, a dash, two
day digits, with the year at least 1 and the month/day in range. -/
def validYmd10 (s : String) : Bool :=
  match s.toList with
  | [y1, y2, y3, y4, h1, m1, m2, h2, d1, d2] =>
    y1.isDigit && y2.isDigit && y3.isDigit && y4.isDigit &&
    m1.isDigit && m2.isDigit && d1.isDigit && d2.isDigit &&
    h1 == '-' && h2 == '-' &&
    (let y := (y1.toNat - 48) * 1000 + (y2.toNat - 48) * 100 + (y3.toNat - 48) * 10 + (y4.toNat - 48)
     let mo := (m1.toNat - 48) * 10 + (m2.toNat - 48)
     let d := (d1.toNat - 48) * 10 + (d2.toNat - 48)
     1 ≤ y && 1 ≤ mo && mo ≤ 12 && 1 ≤ d && d ≤ daysInMonth y mo)
  | _ => false

/-- The `update_info` list of todo.py lines 428-434. -/
def updateInfo (newStatus newPriority newDate : String) : List String :=
  (if newStatus ≠ "" then ["状态: " ++ newStatus] else [])
  ++ (if newPriority ≠ "" then ["优先级: " ++ newPriority] else [])
  ++ (if newDate ≠ "" then ["截止日期: " ++ newDate] else [])

/-- Outcome of an update operation: its `TaskResult` plus the record-store
writes it performed (each a page id with the properties written). -/
structure UpdateOutcome where
  result : TaskResult
  writes : List (String × List (String × String)) := []
deriving Repr, DecidableEq

/-- The tail of `TodoTask.update_by_name` once a best match has been chosen
(todo.py lines 382-450): validate the page id, assemble the non-empty update
fields (a new date is only accepted when it has length 10 and parses as
`%Y-%m-%d`), and perform the store write. -/
def proceedWithBest (updatePageOk : String → Bool)
    (taskName newStatus newPriority newDate : String) (best : Record) : UpdateOutcome :=
  if !truthy best.id then
    { result := { success := false, error := some "无效的任务ID",
                  message := "找到的任务缺少有效ID" } }
  else
    let pageId := pyGet best.id ""
    let updateData : List (String × String) :=
      (if newStatus ≠ "" then [("状态", newStatus)] else [])
      ++ (if newPriority ≠ "" then [("优先级", newPriority)] else [])
      ++ (if newDate ≠ "" ∧ newDate.length = 10 ∧ validYmd10 newDate
          then [("截止日期", newDate)] else [])
    if updateData.isEmpty then
      { result := { success := false, error := some "没有可更新的数据",
                    message := "请指定要更新的状态、优先级或截止日期" } }
    else if updatePageOk pageId then
      { result := { success := true
                    data := [("task_name", .s (pyGet best.title taskName)),
                             ("page_id", .s pageId),
                             ("updates", .lst (updateInfo newStatus newPriority newDate))]
                    message := "已更新任务「" ++ pyGet best.title taskName ++ "」: "
                      ++ pyJoin ", " (updateInfo newStatus newPriority newDate) }
        writes := [(pageId, updateData)] }
    else
      { result := { success := false, error := some "Notion更新失败",
                    message := "更新任务时出错，请稍后重试" }
        writes := [(pageId, updateData)] }

/-- `TodoTask.update_by_name` (todo.py lines 304-458), with the store read
(`query_database`) supplied as `allTodos`, the store write as `updatePageOk`,
and the selection oracle's parsed answer as `sel`. -/
def updateByName (sel : SelAnswer) (updatePageOk : String → Bool)
    (allTodos : List Record) (taskName newStatus newPriority newDate : String) :
    UpdateOutcome :=
  if allTodos.isEmpty then
    { result := { success := false, error := some "没有找到任何任务",
                  message := "待办事项列表为空" } }
  else
    let matched := matchedTasks taskName allTodos
    if matched.isEmpty then
      { result := { success := false, error := some "任务未找到",
                    message := "未找到名称包含「" ++ taskName ++ "」的任务" } }
    else if matched.length = 1 then
      proceedWithBest updatePageOk taskName newStatus newPriority newDate
        (matched.headD {})
    else
      match selectBestMatchWithAI sel taskName matched newStatus newPriority newDate with
      | none => { result := disambiguationResult taskName matched }
      | some best => proceedWithBest updatePageOk taskName newStatus newPriority newDate best

/-! ## Todo handler: delete-all (`src/tasks/todo.py` lines 247-302) -/

/-- The counting loop of `TodoTask.delete_all` (todo.py lines 271-281):
records without a truthy id are skipped; otherwise the archive call
(`delete_page`, supplied as `deleteOk`) decides which counter grows. -/
def deleteCounts (deleteOk : String → Bool) (todos : List Record) : Nat × Nat :=
  todos.foldl
    (fun acc todo =>
      if truthy todo.id then
        if deleteOk (pyGet todo.id "") then (acc.1 + 1, acc.2) else (acc.1, acc.2 + 1)
      else acc)
    (0, 0)

/-- `TodoTask.delete_all` (todo.py lines 247-302), with the unfiltered store
query supplied as `allTodos` and the archive call as `deleteOk`. -/
def deleteAll (deleteOk : String → Bool) (allTodos : List Record) : TaskResult :=
  if allTodos.isEmpty then
    { success := true, data := [("deleted_count", .n 0)],
      message := "没有待办事项需要删除" }
  else
    let c := deleteCounts deleteOk allTodos
    if c.2 = 0 then
      { success := true, data := [("deleted_count", .n c.1)],
        message := "已成功删除 " ++ toString c.1 ++ " 条待办事项" }
    else
      { success := true,
        data := [("deleted_count", .n c.1), ("failed_count", .n c.2)],
        message := "删除了 " ++ toString c.1 ++ " 条待办事项，"
          ++ toString c.2 ++ " 条删除失败" }

/-! ## Reply synthesis: query-result truncation and the fallback formatter
(`src/ai/gemini_client.py`, lines 419-596) -/

/-- `status_order = {"进行中": 3, "待完成": 2, "已完成": 1, "已取消": 0}` with
`.get(..., 0)` (gemini_client.py line 441). -/
def statusRank (r : Record) : Nat :=
  match pyGet r.status "" with
  | "进行中" => 3
  | "待完成" => 2
  | "已完成" => 1
  | "已取消" => 0
  | _ => 0

/-- `priority_order = {"高": 3, "中": 2, "低": 1}` with `.get(..., 0)`
(gemini_client.py line 440). -/
def priorityRank (r : Record) : Nat :=
  match pyGet r.priority "" with
  | "高" => 3
  | "中" => 2
  | "低" => 1
  | _ => 0

/-- `x.get("截止日期", "9999-12-31")` (gemini_client.py line 446): the default
applies only when the key is absent. -/
def dueKey (r : Record) : String := r.dueDate.getD "9999-12-31"

/-- The sort key tuple of gemini_client.py lines 443-447. -/
def sortKey (r : Record) : Nat × Nat × String :=
  (statusRank r, priorityRank r, dueKey r)

/-- Lexicographic `<=` on sort-key tuples (Python tuple comparison, with
strings compared by code point). -/
def keyLe (a b : Nat × Nat × String) : Bool :=
  a.1 < b.1 || (a.1 == b.1 &&
    (a.2.1 < b.2.1 || (a.2.1 == b.2.1 && strLe a.2.2 b.2.2)))

/-- "`a` sorts no later than `b`" under `sorted(key=sortKey, reverse=True)`:
the key of `a` is at least the key of `b`. -/
def rGE (a b : Record) : Prop := keyLe (sortKey b) (sortKey a) = true

instance : DecidableRel rGE := fun a b => instDecidableEqBool _ _

/-- `x.get("日期", x.get("创建时间", ""))` (gemini_client.py line 450). -/
def otherDateKey (r : Record) : String := r.recDate.getD (r.createdTime.getD "")

/-- Descending date order for non-todo query results. -/
def rGEdate (a b : Record) : Prop := strLe (otherDateKey b) (otherDateKey a) = true

instance : DecidableRel rGEdate := fun a b => instDecidableEqBool _ _

/-- The `displayed_results` selection of `generate_query_response`
(gemini_client.py lines 433-450): over 10 records, a stable descending sort by
the key followed by `[:10]`. -/
def displayedResults (queryType : String) (queryResults : List Record) : List Record :=
  if 10 < queryResults.length then
    if queryType = "待办事项" then
      (List.insertionSort rGE queryResults).take 10
    else
      (List.insertionSort rGEdate queryResults).take 10
  else queryResults

/-- The number of records the reply does not display. -/
def unseenCount (queryType : String) (queryResults : List Record) : Nat :=
  queryResults.length - (displayedResults queryType queryResults).length

/-- The status-group iteration order of `_format_query_results_fallback`
(gemini_client.py line 527). -/
def fallbackStatusOrder : List String := ["进行中", "待完成", "已完成", "已取消"]

/-- `status_display` (gemini_client.py lines 533-538). -/
def statusDisplay (st : String) : String :=
  match st with
  | "进行中" => "【进行中】"
  | "待完成" => "【待完成】"
  | "已完成" => "【已完成】"
  | "已取消" => "【已取消】"
  | _ => "【" ++ st ++ "】"

/-- `priority_text` (gemini_client.py line 557). -/
def priorityDisplay (p : String) : String :=
  match p with
  | "高" => "【高】"
  | "中" => "【中】"
  | "低" => "【低】"
  | _ => p

/-- The per-task lines of the fallback formatter (gemini_client.py
lines 543-579), including the trailing blank separator line. -/
def taskInfoLines (item : Record) : List String :=
  let title := pyGet item.title "未知任务"
  let priority := pyGet item.priority ""
  let deadline := pyGet item.dueDate ""
  let category := pyGet item.category ""
  let description := pyGet item.description ""
  let url := pyGet item.url ""
  let createdTime := pyGet item.createdTime ""
  let editedTime := pyGet item.editedTime ""
  ["   - 标题：" ++ title]
  ++ (if priority ≠ "" then ["     优先级：" ++ priorityDisplay priority] else [])
  ++ (if deadline ≠ "" then ["     截止日期：" ++ deadline] else [])
  ++ (if description ≠ "" then ["     描述：" ++ description] else [])
  ++ (if category ≠ "" ∧ category ≠ "未分类" then ["     分类：" ++ category] else [])
  ++ (if url ≠ "" then ["     Notion链接：<" ++ url ++ "|链接>"] else [])
  ++ (if createdTime ≠ "" then ["     创建时间：" ++ createdTime] else [])
  ++ (if editedTime ≠ "" then ["     最后编辑时间：" ++ editedTime] else [])
  ++ [""]

/-- One status group of the fallback formatter: header plus the tasks whose
status equals `st`, in their order in `results` (the dict grouping of
gemini_client.py lines 519-524 preserves encounter order). -/
def statusGroupLines (results : List Record) (st : String) : List String :=
  let group := results.filter (fun item => pyGet item.status "未知" = st)
  if group.isEmpty then []
  else ("\n" ++ statusDisplay st) :: group.flatMap taskInfoLines

/-- The body lines of `_format_query_results_fallback` for the todo branch
(gemini_client.py lines 517-579): statuses outside the fixed four are never
emitted. -/
def todoBodyLines (results : List Record) : List String :=
  fallbackStatusOrder.flatMap (statusGroupLines results)

/-- The numbered lines of the non-todo branch (gemini_client.py
lines 580-585). -/
def simpleBodyLinesAux : Nat → List Record → List String
  | _, [] => []
  | i, item :: rest =>
    (toString i ++ ". " ++ pyGet item.title (pyGet item.rname "未知项目"))
      :: simpleBodyLinesAux (i + 1) rest

def simpleBodyLines (results : List Record) : List String :=
  simpleBodyLinesAux 1 (results.take 10)

/-- All lines of `_format_query_results_fallback` (gemini_client.py
lines 508-596), before the final `"\n".join`. -/
def fallbackLines (results : List Record) (queryType : String) (totalCount : Nat) :
    List String :=
  ("您好，这是您的" ++ queryType ++ "：\n")
    :: (if queryType = "待办事项" then todoBodyLines results else simpleBodyLines results)
    ++ ["总记录数：" ++ toString totalCount,
        "显示记录数：" ++ toString results.length]
    ++ (if results.length < totalCount then
          ["\n还有 " ++ toString (totalCount - results.length) ++ " 个未显示"]
        else
          ["\n您已查看全部" ++ queryType ++ "。"])

/-- `_format_query_results_fallback` (gemini_client.py lines 508-596). -/
def formatQueryResultsFallback (results : List Record) (queryType : String)
    (totalCount : Nat) : String :=
  if results.isEmpty then "没有找到" ++ queryType ++ "记录。"
  else pyJoin "\n" (fallbackLines results queryType totalCount)

/-- `generate_query_response` (gemini_client.py lines 419-506), with the
prose-ification oracle supplied as `oracle` (its argument stands for the
prompt built from the displayed set): when the oracle call fails, the
deterministic fallback formatter is used on the already-truncated set. -/
def generateQueryResponse (oracle : Except String String)
    (queryResults : List Record) (queryType : String) : String :=
  if queryResults.isEmpty then "没有找到相关的" ++ queryType ++ "记录。"
  else
    let displayed := displayedResults queryType queryResults
    match oracle with
    | .ok text => pyStrip text
    | .error _ => formatQueryResultsFallback displayed queryType queryResults.length

/-! ## Intent pipeline (`src/ai/gemini_client.py` lines 111-204,
`src/core/message_processor.py` lines 48-139) -/

/-- A call site of the Completion Oracle.  The concrete prompt text (a long
Chinese template embedding wall-clock date/time) only reaches the
uninterpreted oracle, so it is abstracted into a tag carrying the payload the
call site interpolates. -/
inductive Prompt where
  | analyze (message : String)           -- task_recognition_prompt + message
  | chat (p : String)                    -- the (context-prefixed) chat prompt
deriving Repr, DecidableEq

/-- The result dict of `analyze_task`: the fields `process_message` later
reads, each optional because the oracle's JSON may omit it. -/
structure Analysis where
  taskType : Option String := none
  confidence : Option ℚ := none
  extractedData : List (String × String) := []
  responseText : Option String := none
deriving Repr, DecidableEq

/-- The environment of the pipeline: the Completion Oracle (an `.error`
models a raised exception) and `json.loads` applied to the brace-delimited
island (`none` models `json.JSONDecodeError`). -/
structure PipelineEnv where
  complete : Prompt → Except String String
  parseJson : String → Option Analysis
  schedulerPresent : Bool := true

/-- Python `s.find(c)`: first index of `c`, or `-1`. -/
def pyFindChar (c : Char) (s : String) : Int :=
  match s.toList.indexOf? c with
  | some i => (i : Int)
  | none => -1

/-- Python `s.rfind(c)`: last index of `c`, or `-1`. -/
def pyRFindChar (c : Char) (s : String) : Int :=
  match s.toList.reverse.indexOf? c with
  | some i => (s.length : Int) - 1 - (i : Int)
  | none => -1

/-- Python `s[a:b]` for `0 ≤ a ≤ b`. -/
def pySlice (s : String) (a b : Nat) : String :=
  String.mk ((s.toList.drop a).take (b - a))

/-- The JSON-island extraction used throughout the pipeline:
`json_start = text.find('{')`, `json_end = text.rfind('}') + 1`, and the
slice is taken when `json_start >= 0 and json_end > json_start`. -/
def jsonIsland (text : String) : Option String :=
  let jsonStart := pyFindChar '{' text
  let jsonEnd := pyRFindChar '}' text + 1
  if 0 ≤ jsonStart ∧ jsonStart < jsonEnd then
    some (pySlice text jsonStart.toNat jsonEnd.toNat)
  else none

/-- Island extraction followed by `json.loads`: `none` covers both "no
braces found" and `JSONDecodeError`, the two paths that fall through to the
parse-failure fallback of `analyze_task`. -/
def islandParse (env : PipelineEnv) (text : String) : Option Analysis :=
  match jsonIsland text with
  | some islandStr => env.parseJson islandStr
  | none => none

/-- The fallback `analyze_task` returns when the oracle call raises
(gemini_client.py lines 197-204). -/
def analyzeErrorFallback : Analysis :=
  { taskType := some "chat", confidence := some (1 / 2), extractedData := [],
    responseText := some "我理解了您的消息，让我来帮您处理。" }

/-- The fallback `analyze_task` returns when no JSON object can be read from
the oracle's response (gemini_client.py lines 189-195): note the reply text
is the oracle's own (stripped) response, not a fixed string. -/
def analyzeParseFallback (text : String) : Analysis :=
  { taskType := some "chat", confidence := some (4 / 5), extractedData := [],
    responseText := some text }

/-- `GeminiClient.analyze_task` (gemini_client.py lines 138-204). -/
def analyzeTask (env : PipelineEnv) (message : String) : Analysis :=
  match env.complete (.analyze message) with
  | .error _ => analyzeErrorFallback
  | .ok raw =>
    let text := pyStrip raw
    match islandParse env text with
    | some result => result
    | none => analyzeParseFallback text

/-- `GeminiClient.chat` (gemini_client.py lines 111-136): prefix the context
when it is truthy, strip the oracle's reply, and absorb an oracle error into
a fixed apology. -/
def chatReply (env : PipelineEnv) (message : String) (context : Option String) : String :=
  let prompt := if truthy context then pyGet context "" ++ "\n\n用户：" ++ message else message
  match env.complete (.chat prompt) with
  | .ok t => pyStrip t
  | .error _ => "抱歉，我现在无法处理您的消息，请稍后再试。"

/-- `MessageProcessor._handle_chat` (message_processor.py lines 110-139):
daily-push command hints when a scheduler is attached and the message
mentions 每日推送, otherwise plain AI chat. -/
def handleChat (env : PipelineEnv) (message : String) (context : Option String) : String :=
  if env.schedulerPresent && isSubstrOf "每日推送" message then
    if isSubstrOf "订阅" message || isSubstrOf "开启" message then
      "要订阅每日推送，请使用命令：/subscribe_daily"
    else if isSubstrOf "取消" message || isSubstrOf "关闭" message then
      "要取消每日推送，请使用命令：/unsubscribe_daily"
    else if isSubstrOf "手动" message || isSubstrOf "立即" message then
      "要手动获取今日报告，请使用命令：/daily_report"
    else chatReply env message context
  else chatReply env message context

/-- The non-chat branches of `process_message` (`_handle_task`,
`_handle_query`, `_handle_delete`, `_handle_update`), abstracted as total
reply-producing functions: the claims settled here quantify over them. -/
structure Handlers where
  task : String → String → String
  query : String → String
  delete : String → String
  update : String → String

/-- `MessageProcessor.process_message` (message_processor.py lines 48-108).
The conversation-context store is passed as an association list
`contexts : userId → context blob`; the routing reads
`analysis.get("task_type", "chat")` and `analysis.get("confidence", 0.0)`
and forces the chat branch whenever `confidence < 0.6`. -/
def processMessage (env : PipelineEnv) (h : Handlers)
    (message userId platform : String) (contexts : List (String × String)) : String :=
  let context := contexts.lookup userId
  let analysis := analyzeTask env message
  let taskType := analysis.taskType.getD "chat"
  let confidence := analysis.confidence.getD 0
  if taskType = "chat" ∨ confidence < 3 / 5 then
    handleChat env message context
  else if taskType = "accounting" ∨ taskType = "subscription" ∨ taskType = "todo" then
    h.task taskType message
  else if taskType = "query" then h.query message
  else if taskType = "delete" then h.delete message
  else if taskType = "update" then h.update message
  else handleChat env message context

/-! ## Task dispatcher (`src/core/task_dispatcher.py`,
`src/tasks/base_task.py` lines 244-309) -/

/-- A registered handler, abstracted to its `safe_execute` behaviour (a total
function: `safe_execute` catches every exception and returns a
`TaskResult`). -/
abbrev Handler := List (String × String) → TaskResult

/-- An entry of the dispatcher's execution-history map (task_dispatcher.py
lines 415-461). -/
structure ExecRecord where
  executionId : String
  taskType : String
  userId : String
  taskData : List (String × String)
  startTime : String
  status : String
  success : Option Bool := none
  resultMessage : Option String := none
  resultError : Option String := none

/-- `TaskDispatcher._record_task_start` (task_dispatcher.py lines 415-443). -/
def recordTaskStart (hist : List (String × ExecRecord)) (eid taskType userId : String)
    (data : List (String × String)) (now : String) : List (String × ExecRecord) :=
  hist ++ [(eid, { executionId := eid, taskType := taskType, userId := userId,
                   taskData := data, startTime := now, status := "running" })]

/-- `TaskDispatcher._record_task_result` (task_dispatcher.py lines 445-461). -/
def recordTaskResult (hist : List (String × ExecRecord)) (eid : String)
    (result : TaskResult) : List (String × ExecRecord) :=
  hist.map fun p =>
    if p.1 = eid then
      (p.1, { p.2 with
                status := "completed"
                success := some result.success
                resultMessage := some result.message
                resultError := result.error })
    else p

/-- `TaskDispatcher.execute_task` (task_dispatcher.py lines 27-74) over
`TaskFactory.create_task` (base_task.py lines 261-277): the registry is the
`_task_classes` dict; an unregistered type yields the failed result before
any history entry is created.  Returns the result and the updated history. -/
def executeTask (registry : List (String × Handler)) (hist : List (String × ExecRecord))
    (taskType : String) (data : List (String × String)) (userId now : String) :
    TaskResult × List (String × ExecRecord) :=
  match registry.lookup taskType with
  | none =>
    ({ success := false, error := some ("未知的任务类型: " ++ taskType),
       message := "不支持的任务类型" }, hist)
  | some handler =>
    let eid := userId ++ "_" ++ taskType ++ "_" ++ now
    let hist₁ := recordTaskStart hist eid taskType userId data now
    let result := handler data
    (result, recordTaskResult hist₁ eid result)

/-! ## Daily-report scheduler (`src/core/scheduler.py` lines 165-399) -/

/-- Environment of one report generation: the greeting oracle call and the
two store queries the report aggregates (the query methods themselves catch
store errors, so each is a `TaskResult`). -/
structure ReportEnv where
  greetingOracle : Except String String      -- generate_content for the greeting prompt
  accQueryResult : TaskResult                -- accounting_task.query({"日期": yesterday})
  todoQueryResult : TaskResult               -- todo_task.query({})

/-- `TaskScheduler._generate_morning_greeting` (scheduler.py lines 210-238):
strip whitespace then surrounding quotes, falling back to a fixed greeting on
an oracle error. -/
def morningGreeting (g : Except String String) : String :=
  match g with
  | .ok text => pyStripChar '\'' (pyStripChar '"' (pyStrip text))
  | .error _ => "早安！新的一天开始了，愿您工作顺利，心情愉快！"

/-- The income/expense totals of scheduler.py lines 264-274 (floats modelled
as rationals). -/
def financialTotals (records : List Record) : ℚ × ℚ :=
  records.foldl
    (fun acc record =>
      let amount := record.amount.getD 0
      match pyGet record.rtype "" with
      | "收入" => (acc.1 + amount, acc.2)
      | "支出" => (acc.1, acc.2 + amount)
      | _ => acc)
    (0, 0)

/-- `TaskScheduler._get_yesterday_financial_summary`
(scheduler.py lines 240-300). -/
def yesterdayFinancialSummary (res : TaskResult) : String :=
  if !res.success then "昨日记账数据获取失败"
  else
    let records := getRecords res.data
    if records.isEmpty then "昨日暂无收支记录"
    else
      let t := financialTotals records
      let income := t.1
      let expense := t.2
      let net := income - expense
      let parts : List String :=
        (if 0 < income then ["收入：" ++ toString income ++ "元"] else [])
        ++ (if 0 < expense then ["支出：" ++ toString expense ++ "元"] else [])
        ++ (if 0 < income ∨ 0 < expense then
              (if 0 < net then ["净收入：" ++ toString net ++ "元"]
               else if net < 0 then ["净支出：" ++ toString (-net) ++ "元"]
               else ["收支平衡"])
              ++ ["共 " ++ toString records.length ++ " 笔记录"]
            else [])
      if parts.isEmpty then "昨日暂无收支记录" else pyJoin " | " parts

/-- The today/overdue partition of scheduler.py lines 321-342: completed and
cancelled tasks are skipped, a task without a due date counts as today's,
and the string comparison against `today_date` splits the rest. -/
def partitionTodos (todayDate : String) (todos : List Record) : List Record × List Record :=
  todos.foldl
    (fun acc todo =>
      let status := pyGet todo.status ""
      let dueDate := pyGet todo.dueDate ""
      if status = "已完成" ∨ status = "已取消" then acc
      else if dueDate = "" then (acc.1 ++ [todo], acc.2)
      else if dueDate = todayDate then (acc.1 ++ [todo], acc.2)
      else if strLt dueDate todayDate then (acc.1, acc.2 ++ [todo])
      else acc)
    ([], [])

/-- One overdue-task line (scheduler.py lines 350-354). -/
def overdueLine (todo : Record) : String :=
  "- " ++ pyGet todo.title "" ++ " " ++
    (match pyGet todo.priority "" with
     | "高" => "【高】" | "中" => "【中】" | "低" => "【低】" | _ => "") ++
    " (逾期: " ++ pyGet todo.dueDate "" ++ ")"

/-- One today-task line (scheduler.py lines 362-368). -/
def todayLine (todo : Record) : String :=
  "- " ++ pyGet todo.title "" ++ " " ++
    (match pyGet todo.priority "" with
     | "高" => "【高】" | "中" => "【中】" | "低" => "【低】" | _ => "") ++
    " " ++
    (match pyGet todo.status "" with
     | "进行中" => "【进行中】" | "待完成" => "【待完成】" | _ => "")

/-- `TaskScheduler._get_today_todos` (scheduler.py lines 302-379): up to 3
overdue and 5 today items with "+N more" suffixes, and an explicit
no-tasks phrase when there is no today item. -/
def todayTodosText (res : TaskResult) (todayDate : String) : String :=
  if !res.success then "今日待办事项获取失败"
  else
    let allTodos := getRecords res.data
    let p := partitionTodos todayDate allTodos
    let todayTodos := p.1
    let overdueTodos := p.2
    let overdueParts : List String :=
      if overdueTodos.isEmpty then []
      else
        ["【逾期任务】"] ++ (overdueTodos.take 3).map overdueLine
        ++ (if 3 < overdueTodos.length then
              ["... 还有 " ++ toString (overdueTodos.length - 3) ++ " 个逾期任务"]
            else [])
        ++ [""]
    let todayParts : List String :=
      if todayTodos.isEmpty then ["今日暂无特定截止日期的任务"]
      else
        ["【今日任务】"] ++ (todayTodos.take 5).map todayLine
        ++ (if 5 < todayTodos.length then
              ["... 还有 " ++ toString (todayTodos.length - 5) ++ " 个任务"]
            else [])
    let todoParts := overdueParts ++ todayParts
    if todoParts.isEmpty then "今日暂无待办事项" else pyJoin "\n" todoParts

/-- The ten report lines assembled by `TaskScheduler._generate_daily_report`
(scheduler.py lines 191-202). -/
def reportParts (env : ReportEnv) (today weekday todayDate : String) : List String :=
  ["【早安】" ++ morningGreeting env.greetingOracle,
   "今天是 " ++ today ++ " " ++ weekday,
   "",
   "【昨日收支】",
   yesterdayFinancialSummary env.accQueryResult,
   "",
   "【今日待办】",
   todayTodosText env.todoQueryResult todayDate,
   "",
   "祝您今天工作顺利，心情愉快！"]

/-- `TaskScheduler._generate_daily_report` (scheduler.py lines 165-208); the
wall-clock date strings are parameters. -/
def generateDailyReport (env : ReportEnv) (today weekday todayDate : String) : String :=
  pyJoin "\n" (reportParts env today weekday todayDate)

/-- `TaskScheduler.send_manual_daily_report` (scheduler.py lines 382-399):
builds and returns the same report content directly. -/
def sendManualDailyReport (env : ReportEnv) (today weekday todayDate : String) : String :=
  generateDailyReport env today weekday todayDate

/-! ## Theorems -/

/-- The AI selection helper returns `none` on every input: the prompt
construction always raises. -/
theorem selectBestMatchWithAI_eq_none (sel : SelAnswer) (taskName : String)
    (matched : List Record) (ns np nd : String) :
    selectBestMatchWithAI sel taskName matched ns np nd = none := rfl

/-- With at least two candidates, `update_by_name` always lands in the
disambiguation branch with no store write. -/
theorem updateByName_multi (sel : SelAnswer) (updOk : String → Bool)
    (allTodos : List Record) (name ns np nd : String)
    (h2 : 2 ≤ (matchedTasks name allTodos).length) :
    updateByName sel updOk allTodos name ns np nd =
      { result := disambiguationResult name (matchedTasks name allTodos), writes := [] } := by
  have hall : allTodos.isEmpty = false := by
    cases allTodos with
    | nil => simp [matchedTasks] at h2
    | cons a l => rfl
  have hm : (matchedTasks name allTodos).isEmpty = false := by
    cases hme : matchedTasks name allTodos with
    | nil => rw [hme] at h2; simp at h2
    | cons a l => rfl
  have hlen : ¬ (matchedTasks name allTodos).length = 1 := by omega
  unfold updateByName
  rw [hall]
  simp only [Bool.false_eq_true, if_false]
  rw [hm]
  simp only [Bool.false_eq_true, if_false, if_neg hlen,
    selectBestMatchWithAI_eq_none]

/-- A single candidate resolves directly, bypassing the tie-break. -/
theorem updateByName_single (sel : SelAnswer) (updOk : String → Bool)
    (allTodos : List Record) (name ns np nd : String) (t : Record)
    (h1 : matchedTasks name allTodos = [t]) :
    updateByName sel updOk allTodos name ns np nd =
      proceedWithBest updOk name ns np nd t := by
  have hall : allTodos.isEmpty = false := by
    cases allTodos with
    | nil => simp [matchedTasks] at h1
    | cons a l => rfl
  unfold updateByName
  rw [hall]
  simp only [Bool.false_eq_true, if_false, h1]
  rfl

/-- C1: with two or more substring-matched candidates, a tie-break answer of
confidence below 0.7 or with an out-of-range index leaves `update_by_name`
returning the failed `TaskResult` that enumerates every candidate, with no
store write and no candidate picked; and a tie-break choice is only ever
accepted with confidence at least 0.7 and an in-range index. -/
theorem todo_ambiguous_tiebreak_rejected (updOk : String → Bool)
    (allTodos : List Record) (name ns np nd : String) (idx : Int) (conf : ℚ)
    (h2 : 2 ≤ (matchedTasks name allTodos).length)
    (hbad : conf < 7 / 10 ∨ idx < 0 ∨ ((matchedTasks name allTodos).length : Int) ≤ idx) :
    (updateByName (some (idx, conf)) updOk allTodos name ns np nd).result =
        disambiguationResult name (matchedTasks name allTodos) ∧
    (updateByName (some (idx, conf)) updOk allTodos name ns np nd).result.success = false ∧
    (updateByName (some (idx, conf)) updOk allTodos name ns np nd).writes = [] ∧
    (∀ (sel : SelAnswer) (r : Record),
        selectBestMatchWithAI sel name (matchedTasks name allTodos) ns np nd = some r →
        ∃ i c, sel = some (i, c) ∧ 7 / 10 ≤ c ∧ 0 ≤ i ∧
          i < ((matchedTasks name allTodos).length : Int)) := by
  rw [updateByName_multi _ _ _ _ _ _ _ h2]
  refine ⟨rfl, rfl, rfl, ?_⟩
  intro sel r hr
  rw [selectBestMatchWithAI_eq_none] at hr
  exact absurd hr (by simp)

def rShipRelease : Record :=
  { id := some "p1", title := some "Ship release", status := some "待完成",
    priority := some "高", dueDate := some "2024-06-01" }

def rShipDocs : Record :=
  { id := some "p2", title := some "Ship docs", status := some "进行中",
    priority := some "中", dueDate := some "2024-06-02" }

theorem todo_ambiguous_tiebreak_rejected_witness :
    (updateByName (some (0, 0)) (fun _ => true) [rShipRelease, rShipDocs]
        "ship" "已完成" "" "").result =
      disambiguationResult "ship" (matchedTasks "ship" [rShipRelease, rShipDocs]) ∧
    (updateByName (some (0, 0)) (fun _ => true) [rShipRelease, rShipDocs]
        "ship" "已完成" "" "").result.success = false ∧
    (updateByName (some (0, 0)) (fun _ => true) [rShipRelease, rShipDocs]
        "ship" "已完成" "" "").writes = [] ∧
    (∀ (sel : SelAnswer) (r : Record),
        selectBestMatchWithAI sel "ship" (matchedTasks "ship" [rShipRelease, rShipDocs])
          "已完成" "" "" = some r →
        ∃ i c, sel = some (i, c) ∧ 7 / 10 ≤ c ∧ 0 ≤ i ∧
          i < ((matchedTasks "ship" [rShipRelease, rShipDocs]).length : Int)) :=
  todo_ambiguous_tiebreak_rejected (fun _ => true) [rShipRelease, rShipDocs]
    "ship" "已完成" "" "" 0 0 (by decide)
    (Or.inl (by norm_num))

/-- C2: the candidate set of `update_by_name` is exactly the records whose
lower-cased title and the lower-cased target name contain one another; an
empty collection or an empty candidate set yields the respective not-found
failure with no store write, and a unique candidate is resolved directly,
independently of the tie-break oracle. -/
theorem todo_fuzzy_candidates (sel : SelAnswer) (updOk : String → Bool)
    (allTodos : List Record) (name ns np nd : String) :
    (∀ t, t ∈ matchedTasks name allTodos ↔ t ∈ allTodos ∧
       (isSubstrOf (pyLower name) (pyLower (pyGet t.title "")) = true ∨
        isSubstrOf (pyLower (pyGet t.title "")) (pyLower name) = true)) ∧
    (allTodos = [] →
       updateByName sel updOk allTodos name ns np nd =
         { result := { success := false, error := some "没有找到任何任务",
                       message := "待办事项列表为空" } }) ∧
    (allTodos ≠ [] → matchedTasks name allTodos = [] →
       updateByName sel updOk allTodos name ns np nd =
         { result := { success := false, error := some "任务未找到",
                       message := "未找到名称包含「" ++ name ++ "」的任务" } }) ∧
    (∀ t, matchedTasks name allTodos = [t] →
       updateByName sel updOk allTodos name ns np nd =
         proceedWithBest updOk name ns np nd t) := by
  refine ⟨?_, ?_, ?_, fun t h1 => updateByName_single sel updOk allTodos name ns np nd t h1⟩
  · intro t
    unfold matchedTasks
    rw [List.mem_filter]
    simp
  · intro h
    subst h
    rfl
  · intro hne hm
    have hall : allTodos.isEmpty = false := by
      cases allTodos with
      | nil => exact absurd rfl hne
      | cons a l => rfl
    unfold updateByName
    rw [hall]
    simp only [Bool.false_eq_true, if_false, hm]
    rfl

theorem todo_fuzzy_candidates_witness :
    updateByName none (fun _ => true) [rShipRelease] "ship" "已完成" "" "" =
      proceedWithBest (fun _ => true) "ship" "已完成" "" "" rShipRelease :=
  (todo_fuzzy_candidates none (fun _ => true) [rShipRelease] "ship" "已完成" "" "").2.2.2
    rShipRelease (by decide)

/-- C9: the AI tie-break helper returns `None` on every invocation — the
selection prompt interpolates `json.dumps` before the function-local
`import json` binds that name, so building the prompt always raises — and
with two or more candidates `update_by_name` therefore always falls through
to the enumerated-candidates failure; the acceptance branch is unreachable. -/
theorem todo_tiebreak_unreachable (sel : SelAnswer) (name : String)
    (matched : List Record) (ns np nd : String) (updOk : String → Bool)
    (allTodos : List Record)
    (h2 : 2 ≤ (matchedTasks name allTodos).length) :
    selectBestMatchWithAI sel name matched ns np nd = none ∧
    buildSelectionPrompt name matched ns np nd = .error (.unboundLocal "json") ∧
    (updateByName sel updOk allTodos name ns np nd).result =
      disambiguationResult name (matchedTasks name allTodos) ∧
    (updateByName sel updOk allTodos name ns np nd).writes = [] := by
  rw [updateByName_multi _ _ _ _ _ _ _ h2]
  exact ⟨rfl, rfl, rfl, rfl⟩

theorem todo_tiebreak_unreachable_witness :
    selectBestMatchWithAI (some (1, 1)) "ship" [rShipRelease, rShipDocs] "" "" "" = none ∧
    buildSelectionPrompt "ship" [rShipRelease, rShipDocs] "" "" "" =
      .error (.unboundLocal "json") ∧
    (updateByName (some (1, 1)) (fun _ => true) [rShipRelease, rShipDocs]
        "ship" "" "" "").result =
      disambiguationResult "ship" (matchedTasks "ship" [rShipRelease, rShipDocs]) ∧
    (updateByName (some (1, 1)) (fun _ => true) [rShipRelease, rShipDocs]
        "ship" "" "" "").writes = [] :=
  todo_tiebreak_unreachable (some (1, 1)) "ship" [rShipRelease, rShipDocs] "" "" ""
    (fun _ => true) [rShipRelease, rShipDocs] (by decide)

/-- The predicate counted by the success counter of `delete_all`. -/
def delOkP (deleteOk : String → Bool) (t : Record) : Bool :=
  truthy t.id && deleteOk (pyGet t.id "")

/-- The predicate counted by the failure counter of `delete_all`. -/
def delFailP (deleteOk : String → Bool) (t : Record) : Bool :=
  truthy t.id && !deleteOk (pyGet t.id "")

theorem deleteCounts_loop (deleteOk : String → Bool) :
    ∀ (l : List Record) (a b : Nat),
      l.foldl
        (fun acc todo =>
          if truthy todo.id then
            if deleteOk (pyGet todo.id "") then (acc.1 + 1, acc.2) else (acc.1, acc.2 + 1)
          else acc)
        (a, b) =
      (a + l.countP (delOkP deleteOk), b + l.countP (delFailP deleteOk)) := by
  intro l
  induction l with
  | nil => intro a b; simp
  | cons t ts ih =>
    intro a b
    simp only [List.foldl_cons, List.countP_cons]
    by_cases hid : truthy t.id = true
    · by_cases hok : deleteOk (pyGet t.id "") = true
      · rw [if_pos hid, if_pos hok, ih]
        simp [delOkP, delFailP, hid, hok]
        omega
      · rw [if_pos hid, if_neg hok, ih]
        simp [delOkP, delFailP, hid, hok, Bool.not_eq_true _ ▸ hok]
        omega
    · rw [if_neg hid, ih]
      simp [delOkP, delFailP, Bool.not_eq_true _ ▸ hid]

theorem deleteCounts_eq (deleteOk : String → Bool) (l : List Record) :
    deleteCounts deleteOk l =
      (l.countP (delOkP deleteOk), l.countP (delFailP deleteOk)) := by
  unfold deleteCounts
  rw [deleteCounts_loop]
  simp

/-- C6: `delete_all` on an empty collection reports success with
`deleted_count = 0`; on `N` records that all carry an id, with exactly one
failing archive call, it reports success with `deleted_count = N - 1` and
`failed_count = 1`; and its result is a success for every archive outcome,
so a partial failure is never a hard failure. -/
theorem todo_deleteAll_partial_failure (deleteOk : String → Bool)
    (todos : List Record)
    (hid : ∀ t ∈ todos, truthy t.id = true)
    (hone : todos.countP (fun t => !deleteOk (pyGet t.id "")) = 1) :
    (deleteAll deleteOk []).success = true ∧
    (deleteAll deleteOk []).data.lookup "deleted_count" = some (.n 0) ∧
    (deleteAll deleteOk todos).success = true ∧
    (deleteAll deleteOk todos).data.lookup "deleted_count" =
      some (.n (todos.length - 1)) ∧
    (deleteAll deleteOk todos).data.lookup "failed_count" = some (.n 1) ∧
    (∀ (ok : String → Bool) (l : List Record), (deleteAll ok l).success = true) := by
  have hfail : todos.countP (delFailP deleteOk) = 1 := by
    rw [← hone]
    apply List.countP_congr
    intro t ht
    simp [delFailP, hid t ht]
  have hsplit : ∀ (l : List Record), (∀ t ∈ l, truthy t.id = true) →
      l.countP (delOkP deleteOk) + l.countP (delFailP deleteOk) = l.length := by
    intro l
    induction l with
    | nil => intro _; rfl
    | cons t ts ih =>
      intro h
      have ht := h t (List.mem_cons_self t ts)
      have hts := fun x hx => h x (List.mem_cons_of_mem t hx)
      by_cases hok : deleteOk (pyGet t.id "") = true
      · simp only [List.countP_cons, List.length_cons, delOkP, delFailP, ht, hok]
        simp only [Bool.true_and, Bool.not_true, if_true, if_false]
        rw [← ih hts]
        simp [delOkP, delFailP]
        omega
      · simp only [List.countP_cons, List.length_cons, delOkP, delFailP, ht,
          Bool.not_eq_true _ ▸ hok]
        simp only [Bool.true_and, Bool.not_false, if_true, if_false]
        rw [← ih hts]
        simp [delOkP, delFailP]
        omega
  have hok : todos.countP (delOkP deleteOk) = todos.length - 1 := by
    have h := hsplit todos hid
    omega
  have hne : todos.isEmpty = false := by
    cases todos with
    | nil => simp at hone
    | cons a l => rfl
  have hsucc : ∀ (ok : String → Bool) (l : List Record),
      (deleteAll ok l).success = true := by
    intro ok l
    unfold deleteAll
    rcases l with _ | ⟨a, l'⟩
    · rfl
    · simp only [List.isEmpty_cons, Bool.false_eq_true, if_false]
      by_cases hz : (deleteCounts ok (a :: l')).2 = 0
      · rw [if_pos hz]
      · rw [if_neg hz]
  refine ⟨rfl, rfl, hsucc deleteOk todos, ?_, ?_, hsucc⟩
  · unfold deleteAll
    rw [hne]
    simp only [Bool.false_eq_true, if_false, deleteCounts_eq, hfail, hok]
    rw [if_neg (by omega : ¬ (1 : Nat) = 0)]
    rfl
  · unfold deleteAll
    rw [hne]
    simp only [Bool.false_eq_true, if_false, deleteCounts_eq, hfail, hok]
    rw [if_neg (by omega : ¬ (1 : Nat) = 0)]
    simp [List.lookup]

theorem todo_deleteAll_partial_failure_witness :
    (deleteAll (fun pid => pid ≠ "p2") []).success = true ∧
    (deleteAll (fun pid => pid ≠ "p2") []).data.lookup "deleted_count" = some (.n 0) ∧
    (deleteAll (fun pid => pid ≠ "p2") [rShipRelease, rShipDocs]).success = true ∧
    (deleteAll (fun pid => pid ≠ "p2")
        [rShipRelease, rShipDocs]).data.lookup "deleted_count" =
      some (.n ([rShipRelease, rShipDocs].length - 1)) ∧
    (deleteAll (fun pid => pid ≠ "p2")
        [rShipRelease, rShipDocs]).data.lookup "failed_count" = some (.n 1) ∧
    (∀ (ok : String → Bool) (l : List Record), (deleteAll ok l).success = true) :=
  todo_deleteAll_partial_failure (fun pid => pid ≠ "p2") [rShipRelease, rShipDocs]
    (by decide) (by decide)

/-- C10: an unregistered task type makes `execute_task` return the failed
unknown-task-type `TaskResult` and leaves the execution-history map
unchanged — the history entry is only created after the handler has been
resolved. -/
theorem dispatcher_unknown_type_no_history (registry : List (String × Handler))
    (hist : List (String × ExecRecord)) (taskType : String)
    (data : List (String × String)) (userId now : String)
    (hnone : registry.lookup taskType = none) :
    executeTask registry hist taskType data userId now =
      ({ success := false, error := some ("未知的任务类型: " ++ taskType),
         message := "不支持的任务类型" }, hist) ∧
    (executeTask registry hist taskType data userId now).1.success = false ∧
    (executeTask registry hist taskType data userId now).2 = hist := by
  unfold executeTask
  rw [hnone]
  exact ⟨rfl, rfl, rfl⟩

theorem dispatcher_unknown_type_no_history_witness :
    executeTask [] [] "email" [] "u1" "t0" =
      ({ success := false, error := some ("未知的任务类型: " ++ "email"),
         message := "不支持的任务类型" }, []) ∧
    (executeTask [] [] "email" [] "u1" "t0").1.success = false ∧
    (executeTask ([] : List (String × Handler)) [] "email" [] "u1" "t0").2 = [] :=
  dispatcher_unknown_type_no_history [] [] "email" [] "u1" "t0" rfl

/-- C3: whenever the classification confidence is below 0.6,
`process_message` takes the chat branch, whatever the reported task type and
whatever the other handlers would reply. -/
theorem low_confidence_routes_to_chat (env : PipelineEnv) (h : Handlers)
    (message userId platform : String) (contexts : List (String × String))
    (hc : (analyzeTask env message).confidence.getD 0 < 3 / 5) :
    processMessage env h message userId platform contexts =
      handleChat env message (contexts.lookup userId) := by
  unfold processMessage
  rw [if_pos (Or.inr hc)]

def envLowConf : PipelineEnv :=
  { complete := fun _ => .ok "{}"
    parseJson := fun _ =>
      some { taskType := some "todo", confidence := some (3 / 10), extractedData := [],
             responseText := none }
    schedulerPresent := true }

def demoHandlers : Handlers :=
  { task := fun _ _ => "task-branch", query := fun _ => "query-branch",
    delete := fun _ => "delete-branch", update := fun _ => "update-branch" }

theorem low_confidence_routes_to_chat_witness :
    processMessage envLowConf demoHandlers "明天提醒我开会" "u1" "telegram" [] =
      handleChat envLowConf "明天提醒我开会" (([] : List (String × String)).lookup "u1") :=
  low_confidence_routes_to_chat envLowConf demoHandlers "明天提醒我开会" "u1" "telegram" []
    (by
      have h1 : analyzeTask envLowConf "明天提醒我开会" =
          { taskType := some "todo", confidence := some (3 / 10), extractedData := [],
            responseText := none } := rfl
      rw [h1]
      norm_num)

/-- C4: when every Completion Oracle call fails, `process_message` still
returns a reply, the reply is one of the pipeline's literal fallback
strings — the oracle failure is absorbed into the reply text — and it is
never empty. -/
theorem processMessage_oracle_down_nonempty (err : String)
    (parse : String → Option Analysis) (sched : Bool) (h : Handlers)
    (message userId platform : String) (contexts : List (String × String)) :
    processMessage ⟨fun _ => .error err, parse, sched⟩ h message userId platform contexts ∈
      ["要订阅每日推送，请使用命令：/subscribe_daily",
       "要取消每日推送，请使用命令：/unsubscribe_daily",
       "要手动获取今日报告，请使用命令：/daily_report",
       "抱歉，我现在无法处理您的消息，请稍后再试。"] ∧
    processMessage ⟨fun _ => .error err, parse, sched⟩ h message userId platform
      contexts ≠ "" := by
  have hroute : processMessage ⟨fun _ => .error err, parse, sched⟩ h message userId
      platform contexts =
      handleChat ⟨fun _ => .error err, parse, sched⟩ message (contexts.lookup userId) := by
    have ha : analyzeTask ⟨fun _ => .error err, parse, sched⟩ message =
        analyzeErrorFallback := rfl
    simp [processMessage, ha, analyzeErrorFallback]
  rw [hroute]
  have hmem : handleChat ⟨fun _ => .error err, parse, sched⟩ message
      (contexts.lookup userId) ∈
      ["要订阅每日推送，请使用命令：/subscribe_daily",
       "要取消每日推送，请使用命令：/unsubscribe_daily",
       "要手动获取今日报告，请使用命令：/daily_report",
       "抱歉，我现在无法处理您的消息，请稍后再试。"] := by
    unfold handleChat chatReply
    split
    · split
      · simp
      · split
        · simp
        · split
          · simp
          · simp
    · simp
  refine ⟨hmem, ?_⟩
  intro hempty
  rw [hempty] at hmem
  simp at hmem

/-- C5 counterexample: the claim says the classification fallback carries a
literal apology string as the reply hint; but on a JSON-parse failure the
code stores the oracle's own response text, so the hint varies with the
oracle and is not a fixed string (and the only fixed fallback string,
"我理解了您的消息，让我来帮您处理。", is not an apology). -/
theorem classify_fallback_hint_not_literal :
    (analyzeTask ⟨fun _ => .ok "hello", fun _ => none, true⟩ "你好").responseText =
      some "hello" ∧
    (analyzeTask ⟨fun _ => .ok "world", fun _ => none, true⟩ "你好").responseText =
      some "world" ∧
    (analyzeTask ⟨fun _ => .ok "hello", fun _ => none, true⟩ "你好").taskType =
      some "chat" ∧
    (analyzeTask ⟨fun _ => .ok "hello", fun _ => none, true⟩ "你好").responseText ≠
      (analyzeTask ⟨fun _ => .ok "world", fun _ => none, true⟩ "你好").responseText ∧
    (analyzeTask ⟨fun _ => .ok "hello", fun _ => none, true⟩ "你好").responseText ≠
      some "我理解了您的消息，让我来帮您处理。" := by
  refine ⟨rfl, rfl, rfl, ?_, ?_⟩ <;> decide

/-- C5 (amended): on an oracle error, `analyze_task` returns the chat
fallback with confidence 0.5 and the fixed string
"我理解了您的消息，让我来帮您处理。" as the reply hint; on a JSON-parse failure
it returns the chat fallback with confidence 0.8 and the oracle's stripped
response text as the reply hint; in both cases the kind is chat, the
confidence lies within [0.5, 0.8], and the failure is absorbed rather than
propagated. -/
theorem classify_fallback_amended (env : PipelineEnv) (message : String) :
    (∀ e, env.complete (.analyze message) = .error e →
        analyzeTask env message = analyzeErrorFallback) ∧
    (∀ raw, env.complete (.analyze message) = .ok raw →
        islandParse env (pyStrip raw) = none →
        analyzeTask env message = analyzeParseFallback (pyStrip raw)) ∧
    (∀ a : Analysis, a = analyzeErrorFallback ∨ (∃ t, a = analyzeParseFallback t) →
        a.taskType = some "chat" ∧
        ∃ c, a.confidence = some c ∧ 1 / 2 ≤ c ∧ c ≤ 4 / 5) := by
  refine ⟨?_, ?_, ?_⟩
  · intro e he
    unfold analyzeTask
    rw [he]
  · intro raw hraw hisland
    unfold analyzeTask
    rw [hraw]
    simp only [hisland]
  · rintro a (rfl | ⟨t, rfl⟩)
    · exact ⟨rfl, 1 / 2, rfl, le_refl _, by norm_num⟩
    · exact ⟨rfl, 4 / 5, rfl, by norm_num, le_refl _⟩

theorem classify_fallback_amended_witness :
    analyzeTask ⟨fun _ => .error "connection reset", fun _ => none, true⟩ "记一笔支出" =
      analyzeErrorFallback :=
  (classify_fallback_amended
    ⟨fun _ => .error "connection reset", fun _ => none, true⟩ "记一笔支出").1
    "connection reset" rfl

/-- C8: for a user with no to-do records and no accounting records dated
yesterday, the manual daily report is the newline-join of ten fixed lines
whose first line carries the 【早安】 greeting, whose financial section reads
"昨日暂无收支记录" and whose to-do section reads
"今日暂无特定截止日期的任务"; the report is never the empty string. -/
theorem manual_report_empty_day (g : Except String String)
    (today weekday todayDate : String) (accRes todoRes : TaskResult)
    (hacc : accRes.success = true) (haccr : getRecords accRes.data = [])
    (htodo : todoRes.success = true) (htodor : getRecords todoRes.data = []) :
    reportParts ⟨g, accRes, todoRes⟩ today weekday todayDate =
      ["【早安】" ++ morningGreeting g,
       "今天是 " ++ today ++ " " ++ weekday,
       "",
       "【昨日收支】",
       "昨日暂无收支记录",
       "",
       "【今日待办】",
       "今日暂无特定截止日期的任务",
       "",
       "祝您今天工作顺利，心情愉快！"] ∧
    "昨日暂无收支记录" ∈ reportParts ⟨g, accRes, todoRes⟩ today weekday todayDate ∧
    "今日暂无特定截止日期的任务" ∈
      reportParts ⟨g, accRes, todoRes⟩ today weekday todayDate ∧
    sendManualDailyReport ⟨g, accRes, todoRes⟩ today weekday todayDate =
      pyJoin "\n" (reportParts ⟨g, accRes, todoRes⟩ today weekday todayDate) ∧
    sendManualDailyReport ⟨g, accRes, todoRes⟩ today weekday todayDate ≠ "" := by
  have hfin : yesterdayFinancialSummary accRes = "昨日暂无收支记录" := by
    unfold yesterdayFinancialSummary
    rw [hacc]
    simp [haccr]
  have htt : todayTodosText todoRes todayDate = "今日暂无特定截止日期的任务" := by
    unfold todayTodosText
    rw [htodo]
    simp [htodor, partitionTodos, pyJoin]
  have hparts : reportParts ⟨g, accRes, todoRes⟩ today weekday todayDate =
      ["【早安】" ++ morningGreeting g,
       "今天是 " ++ today ++ " " ++ weekday,
       "",
       "【昨日收支】",
       "昨日暂无收支记录",
       "",
       "【今日待办】",
       "今日暂无特定截止日期的任务",
       "",
       "祝您今天工作顺利，心情愉快！"] := by
    unfold reportParts
    rw [hfin, htt]
  refine ⟨hparts, ?_, ?_, rfl, ?_⟩
  · rw [hparts]; simp
  · rw [hparts]; simp
  · intro hempty
    have hlen := congrArg String.length hempty
    rw [show sendManualDailyReport ⟨g, accRes, todoRes⟩ today weekday todayDate =
          pyJoin "\n" (reportParts ⟨g, accRes, todoRes⟩ today weekday todayDate) from rfl,
        hparts] at hlen
    simp only [pyJoin, String.length_append] at hlen
    have hpos : 0 < ("【昨日收支】" : String).length := by decide
    omega

theorem manual_report_empty_day_witness :
    reportParts ⟨.error "down", { success := true }, { success := true }⟩
        "2024-06-01" "周六" "2024-06-01" =
      ["【早安】" ++ morningGreeting (.error "down"),
       "今天是 " ++ "2024-06-01" ++ " " ++ "周六",
       "",
       "【昨日收支】",
       "昨日暂无收支记录",
       "",
       "【今日待办】",
       "今日暂无特定截止日期的任务",
       "",
       "祝您今天工作顺利，心情愉快！"] ∧
    "昨日暂无收支记录" ∈
      reportParts ⟨.error "down", { success := true }, { success := true }⟩
        "2024-06-01" "周六" "2024-06-01" ∧
    "今日暂无特定截止日期的任务" ∈
      reportParts ⟨.error "down", { success := true }, { success := true }⟩
        "2024-06-01" "周六" "2024-06-01" ∧
    sendManualDailyReport ⟨.error "down", { success := true }, { success := true }⟩
        "2024-06-01" "周六" "2024-06-01" =
      pyJoin "\n"
        (reportParts ⟨.error "down", { success := true }, { success := true }⟩
          "2024-06-01" "周六" "2024-06-01") ∧
    sendManualDailyReport ⟨.error "down", { success := true }, { success := true }⟩
        "2024-06-01" "周六" "2024-06-01" ≠ "" :=
  manual_report_empty_day (.error "down") "2024-06-01" "周六" "2024-06-01"
    { success := true } { success := true } rfl rfl rfl rfl

/-! ### Order facts for the truncation sort (C7) -/

theorem strLtAux_trans : ∀ a b c : List Char,
    strLtAux a b = true → strLtAux b c = true → strLtAux a c = true := by
  intro a
  induction a with
  | nil =>
    intro b c hab hbc
    cases b with
    | nil => exact hbc
    | cons y ys =>
      cases c with
      | nil => simp [strLtAux] at hbc
      | cons z zs => rfl
  | cons x xs ih =>
    intro b c hab hbc
    cases b with
    | nil => simp [strLtAux] at hab
    | cons y ys =>
      cases c with
      | nil => simp [strLtAux] at hbc
      | cons z zs =>
        simp only [strLtAux, Bool.or_eq_true, Bool.and_eq_true, beq_iff_eq,
          decide_eq_true_eq] at hab hbc ⊢
        rcases hab with h1 | ⟨h1, h1'⟩ <;> rcases hbc with h2 | ⟨h2, h2'⟩
        · exact Or.inl (by omega)
        · exact Or.inl (by omega)
        · exact Or.inl (by omega)
        · exact Or.inr ⟨by omega, ih ys zs h1' h2'⟩

theorem strLtAux_eq_of_not : ∀ a b : List Char,
    strLtAux a b = false → strLtAux b a = false → a = b := by
  intro a
  induction a with
  | nil =>
    intro b hab _
    cases b with
    | nil => rfl
    | cons y ys => simp [strLtAux] at hab
  | cons x xs ih =>
    intro b hab hba
    cases b with
    | nil => simp [strLtAux] at hba
    | cons y ys =>
      simp only [strLtAux, Bool.or_eq_false_iff, Bool.and_eq_false_iff,
        beq_eq_false_iff_ne, ne_eq, decide_eq_false_iff_not, not_lt] at hab hba
      have hxy : x.toNat = y.toNat := by omega
      have hx : x = y :=
        Char.ofNat_toNat x ▸ Char.ofNat_toNat y ▸ congrArg Char.ofNat hxy
      subst hx
      rcases hab.2 with h | h
      · exact absurd rfl h
      · rcases hba.2 with h' | h'
        · exact absurd rfl h'
        · rw [ih ys h h']

theorem strLe_refl (a : String) : strLe a a = true := by
  simp [strLe]

theorem strLe_trans {a b c : String} (hab : strLe a b = true) (hbc : strLe b c = true) :
    strLe a c = true := by
  simp only [strLe, Bool.or_eq_true, beq_iff_eq] at hab hbc ⊢
  rcases hab with rfl | hab
  · exact hbc
  · rcases hbc with rfl | hbc
    · exact Or.inr hab
    · exact Or.inr (strLtAux_trans _ _ _ hab hbc)

theorem strLe_total (a b : String) : strLe a b = true ∨ strLe b a = true := by
  simp only [strLe, Bool.or_eq_true, beq_iff_eq]
  by_cases h1 : strLt a b = true
  · exact Or.inl (Or.inr h1)
  · by_cases h2 : strLt b a = true
    · exact Or.inr (Or.inr h2)
    · left
      left
      have hdata := strLtAux_eq_of_not a.toList b.toList
        (Bool.not_eq_true _ ▸ h1) (Bool.not_eq_true _ ▸ h2)
      cases a
      cases b
      exact congrArg String.mk hdata

theorem keyLe_trans {a b c : Nat × Nat × String}
    (hab : keyLe a b = true) (hbc : keyLe b c = true) : keyLe a c = true := by
  simp only [keyLe, Bool.or_eq_true, Bool.and_eq_true, beq_iff_eq,
    decide_eq_true_eq] at hab hbc ⊢
  rcases hab with h1 | ⟨h1, h1'⟩ <;> rcases hbc with h2 | ⟨h2, h2'⟩
  · exact Or.inl (by omega)
  · exact Or.inl (by omega)
  · exact Or.inl (by omega)
  · rcases h1' with h3 | ⟨h3, h3'⟩ <;> rcases h2' with h4 | ⟨h4, h4'⟩
    · exact Or.inr ⟨by omega, Or.inl (by omega)⟩
    · exact Or.inr ⟨by omega, Or.inl (by omega)⟩
    · exact Or.inr ⟨by omega, Or.inl (by omega)⟩
    · exact Or.inr ⟨by omega, Or.inr ⟨by omega, strLe_trans h3' h4'⟩⟩

theorem keyLe_total (a b : Nat × Nat × String) :
    keyLe a b = true ∨ keyLe b a = true := by
  simp only [keyLe, Bool.or_eq_true, Bool.and_eq_true, beq_iff_eq,
    decide_eq_true_eq]
  rcases Nat.lt_trichotomy a.1 b.1 with h | h | h
  · exact Or.inl (Or.inl h)
  · rcases Nat.lt_trichotomy a.2.1 b.2.1 with h' | h' | h'
    · exact Or.inl (Or.inr ⟨h, Or.inl h'⟩)
    · rcases strLe_total a.2.2 b.2.2 with hs | hs
      · exact Or.inl (Or.inr ⟨h, Or.inr ⟨h', hs⟩⟩)
      · exact Or.inr (Or.inr ⟨h.symm, Or.inr ⟨h'.symm, hs⟩⟩)
    · exact Or.inr (Or.inr ⟨h.symm, Or.inl h'⟩)
  · exact Or.inr (Or.inl h)

instance : IsTotal Record rGE :=
  ⟨fun a b => by
    unfold rGE
    exact keyLe_total (sortKey b) (sortKey a)⟩

instance : IsTrans Record rGE :=
  ⟨fun a b c hab hbc => by
    unfold rGE at hab hbc ⊢
    exact keyLe_trans hbc hab⟩

theorem statusRank_le_three (r : Record) : statusRank r ≤ 3 := by
  unfold statusRank
  split <;> omega

theorem rGE_statusRank {a b : Record} (h : rGE a b) : statusRank b ≤ statusRank a := by
  simp only [rGE, keyLe, sortKey, Bool.or_eq_true, Bool.and_eq_true, beq_iff_eq,
    decide_eq_true_eq] at h
  rcases h with h | ⟨h, _⟩ <;> omega

/-- The records of `l` whose status rank is `k`. -/
def filterRank (k : Nat) (l : List Record) : List Record :=
  l.filter (fun r => statusRank r == k)

theorem filterRank_cons_self {x : Record} {xs : List Record} {k : Nat}
    (h : statusRank x = k) : filterRank k (x :: xs) = x :: filterRank k xs := by
  simp [filterRank, List.filter_cons, h]

theorem filterRank_cons_ne {x : Record} {xs : List Record} {k : Nat}
    (h : statusRank x ≠ k) : filterRank k (x :: xs) = filterRank k xs := by
  simp [filterRank, List.filter_cons, h]

theorem rank_concat : ∀ l : List Record,
    l.Pairwise (fun a b => statusRank b ≤ statusRank a) →
    l = filterRank 3 l ++ filterRank 2 l ++ filterRank 1 l ++ filterRank 0 l := by
  intro l
  induction l with
  | nil => intro _; rfl
  | cons x xs ih =>
    intro hp
    rw [List.pairwise_cons] at hp
    obtain ⟨hx, hxs⟩ := hp
    have hih := ih hxs
    have hempty : ∀ k, statusRank x < k → filterRank k xs = [] := by
      intro k hk
      apply List.filter_eq_nil_iff.mpr
      intro y hy
      have := hx y hy
      simp only [beq_iff_eq]
      omega
    have h3 := statusRank_le_three x
    have hcases : statusRank x = 3 ∨ statusRank x = 2 ∨ statusRank x = 1 ∨
        statusRank x = 0 := by omega
    rcases hcases with hr | hr | hr | hr
    · rw [filterRank_cons_self hr, filterRank_cons_ne (by omega),
        filterRank_cons_ne (by omega), filterRank_cons_ne (by omega),
        List.cons_append]
      exact congrArg (x :: ·) hih
    · have he3 : filterRank 3 xs = [] := hempty 3 (by omega)
      rw [filterRank_cons_ne (by omega), filterRank_cons_self hr,
        filterRank_cons_ne (by omega), filterRank_cons_ne (by omega),
        he3, List.nil_append, List.cons_append]
      rw [he3, List.nil_append] at hih
      exact congrArg (x :: ·) hih
    · have he3 : filterRank 3 xs = [] := hempty 3 (by omega)
      have he2 : filterRank 2 xs = [] := hempty 2 (by omega)
      rw [filterRank_cons_ne (by omega), filterRank_cons_ne (by omega),
        filterRank_cons_self hr, filterRank_cons_ne (by omega),
        he3, he2, List.nil_append, List.nil_append, List.cons_append]
      rw [he3, he2, List.nil_append, List.nil_append] at hih
      exact congrArg (x :: ·) hih
    · have he3 : filterRank 3 xs = [] := hempty 3 (by omega)
      have he2 : filterRank 2 xs = [] := hempty 2 (by omega)
      have he1 : filterRank 1 xs = [] := hempty 1 (by omega)
      rw [filterRank_cons_ne (by omega), filterRank_cons_ne (by omega),
        filterRank_cons_ne (by omega), filterRank_cons_self hr,
        he3, he2, he1, List.nil_append, List.nil_append, List.nil_append]
      rw [he3, he2, he1, List.nil_append, List.nil_append, List.nil_append] at hih
      exact congrArg (x :: ·) hih

/-- The order in which the todo branch of the fallback formatter walks the
records: the four fixed status groups in their fixed order, each group in
`results` order (matching the filters inside `statusGroupLines`). -/
def fallbackEmission (results : List Record) : List Record :=
  fallbackStatusOrder.flatMap
    (fun st => results.filter (fun item => pyGet item.status "未知" = st))

theorem status_filter_eq_rank (l : List Record)
    (hst : ∀ r ∈ l, pyGet r.status "未知" ∈ fallbackStatusOrder) :
    l.filter (fun item => pyGet item.status "未知" = "进行中") = filterRank 3 l ∧
    l.filter (fun item => pyGet item.status "未知" = "待完成") = filterRank 2 l ∧
    l.filter (fun item => pyGet item.status "未知" = "已完成") = filterRank 1 l ∧
    l.filter (fun item => pyGet item.status "未知" = "已取消") = filterRank 0 l := by
  have key : ∀ r ∈ l, ∃ s, r.status = some s ∧
      (s = "进行中" ∨ s = "待完成" ∨ s = "已完成" ∨ s = "已取消") := by
    intro r hr
    have h := hst r hr
    cases hs : r.status with
    | none =>
      rw [show pyGet r.status "未知" = "未知" from by rw [hs]; rfl] at h
      simp [fallbackStatusOrder] at h
    | some s =>
      rw [show pyGet r.status "未知" = s from by rw [hs]; rfl] at h
      simp only [fallbackStatusOrder, List.mem_cons, List.not_mem_nil, or_false] at h
      exact ⟨s, rfl, h⟩
  refine ⟨?_, ?_, ?_, ?_⟩ <;>
  · apply List.filter_congr
    intro r hr
    obtain ⟨s, hs, hfour⟩ := key r hr
    have h1 : pyGet r.status "未知" = s := by rw [hs]; rfl
    have h2 : pyGet r.status "" = s := by rw [hs]; rfl
    rcases hfour with rfl | rfl | rfl | rfl <;>
      simp [h1, statusRank, h2]

theorem fallbackEmission_eq_of_sorted (l : List Record)
    (hsorted : List.Sorted rGE l)
    (hst : ∀ r ∈ l, pyGet r.status "未知" ∈ fallbackStatusOrder) :
    fallbackEmission l = l := by
  obtain ⟨e3, e2, e1, e0⟩ := status_filter_eq_rank l hst
  have hpair : l.Pairwise (fun a b => statusRank b ≤ statusRank a) :=
    hsorted.imp (fun h => rGE_statusRank h)
  have hconcat := rank_concat l hpair
  unfold fallbackEmission fallbackStatusOrder
  simp only [List.flatMap_cons, List.flatMap_nil, List.append_nil]
  rw [e3, e2, e1, e0]
  rw [List.append_assoc, List.append_assoc] at hconcat
  exact hconcat.symm

/-- C7: for a to-do query with more than 10 results, the displayed set is the
first 10 elements of the stable descending sort by (status rank, priority
rank, due date); it has exactly 10 elements, is sorted, and draws only from
the query results; on an oracle failure the reply is the deterministic
fallback applied to that same displayed set, its lines state the literal
unseen count, and (for records bearing the four standard statuses) the
fallback's status-group walk reproduces exactly the sorted display order. -/
theorem query_truncation_sort (e : String) (queryResults : List Record)
    (hlen : 10 < queryResults.length)
    (hst : ∀ r ∈ displayedResults "待办事项" queryResults,
        pyGet r.status "未知" ∈ fallbackStatusOrder) :
    displayedResults "待办事项" queryResults =
      (List.insertionSort rGE queryResults).take 10 ∧
    (displayedResults "待办事项" queryResults).length = 10 ∧
    List.Sorted rGE (displayedResults "待办事项" queryResults) ∧
    (∀ r ∈ displayedResults "待办事项" queryResults, r ∈ queryResults) ∧
    generateQueryResponse (.error e) queryResults "待办事项" =
      formatQueryResultsFallback (displayedResults "待办事项" queryResults)
        "待办事项" queryResults.length ∧
    ("\n还有 " ++ toString (queryResults.length - 10) ++ " 个未显示") ∈
      fallbackLines (displayedResults "待办事项" queryResults) "待办事项"
        queryResults.length ∧
    fallbackEmission (displayedResults "待办事项" queryResults) =
      displayedResults "待办事项" queryResults := by
  have hne : queryResults.isEmpty = false := by
    cases queryResults with
    | nil => simp at hlen
    | cons a l => rfl
  have hd : displayedResults "待办事项" queryResults =
      (List.insertionSort rGE queryResults).take 10 := by
    unfold displayedResults
    rw [if_pos hlen, if_pos rfl]
  have h10 : (displayedResults "待办事项" queryResults).length = 10 := by
    rw [hd, List.length_take]
    have := (List.perm_insertionSort rGE queryResults).length_eq
    omega
  have hsorted : List.Sorted rGE (displayedResults "待办事项" queryResults) := by
    rw [hd]
    exact List.Pairwise.sublist (List.take_sublist 10 _)
      (List.sorted_insertionSort rGE queryResults)
  have hmem : ∀ r ∈ displayedResults "待办事项" queryResults, r ∈ queryResults := by
    intro r hr
    rw [hd] at hr
    have := List.take_subset 10 (List.insertionSort rGE queryResults) hr
    exact (List.mem_insertionSort rGE).mp this
  have hfall : generateQueryResponse (.error e) queryResults "待办事项" =
      formatQueryResultsFallback (displayedResults "待办事项" queryResults)
        "待办事项" queryResults.length := by
    unfold generateQueryResponse
    rw [hne]
    simp
  have hline : ("\n还有 " ++ toString (queryResults.length - 10) ++ " 个未显示") ∈
      fallbackLines (displayedResults "待办事项" queryResults) "待办事项"
        queryResults.length := by
    unfold fallbackLines
    rw [h10, if_pos hlen]
    simp
  exact ⟨hd, h10, hsorted, hmem, hfall, hline,
    fallbackEmission_eq_of_sorted _ hsorted hst⟩

def demoTodos15 : List Record :=
  [{ id := some "t01", title := some "写周报", status := some "待完成",
     priority := some "高", dueDate := some "2024-06-05" },
   { id := some "t02", title := some "买菜", status := some "已完成",
     priority := some "低", dueDate := some "2024-06-01" },
   { id := some "t03", title := some "开会", status := some "进行中",
     priority := some "中", dueDate := some "2024-06-02" },
   { id := some "t04", title := some "健身", status := some "待完成",
     priority := some "低", dueDate := none },
   { id := some "t05", title := some "读书", status := some "已取消",
     priority := some "中", dueDate := some "2024-05-30" },
   { id := some "t06", title := some "发布版本", status := some "进行中",
     priority := some "高", dueDate := some "2024-06-04" },
   { id := some "t07", title := some "修复缺陷", status := some "待完成",
     priority := some "高", dueDate := some "2024-06-03" },
   { id := some "t08", title := some "写文档", status := some "待完成",
     priority := some "中", dueDate := some "2024-06-07" },
   { id := some "t09", title := some "体检", status := some "已完成",
     priority := some "高", dueDate := some "2024-05-28" },
   { id := some "t10", title := some "报税", status := some "待完成",
     priority := some "高", dueDate := some "2024-06-10" },
   { id := some "t11", title := some "学习课程", status := some "进行中",
     priority := some "低", dueDate := some "2024-06-09" },
   { id := some "t12", title := some "洗车", status := some "已取消",
     priority := some "低", dueDate := none },
   { id := some "t13", title := some "季度回顾", status := some "待完成",
     priority := some "中", dueDate := some "2024-06-02" },
   { id := some "t14", title := some "整理照片", status := some "已完成",
     priority := some "中", dueDate := some "2024-06-01" },
   { id := some "t15", title := some "预订机票", status := some "待完成",
     priority := some "高", dueDate := some "2024-06-06" }]

theorem query_truncation_sort_witness :
    displayedResults "待办事项" demoTodos15 =
      (List.insertionSort rGE demoTodos15).take 10 ∧
    (displayedResults "待办事项" demoTodos15).length = 10 ∧
    List.Sorted rGE (displayedResults "待办事项" demoTodos15) ∧
    (∀ r ∈ displayedResults "待办事项" demoTodos15, r ∈ demoTodos15) ∧
    generateQueryResponse (.error "oracle down") demoTodos15 "待办事项" =
      formatQueryResultsFallback (displayedResults "待办事项" demoTodos15)
        "待办事项" demoTodos15.length ∧
    ("\n还有 " ++ toString (demoTodos15.length - 10) ++ " 个未显示") ∈
      fallbackLines (displayedResults "待办事项" demoTodos15) "待办事项"
        demoTodos15.length ∧
    fallbackEmission (displayedResults "待办事项" demoTodos15) =
      displayedResults "待办事项" demoTodos15 :=
  query_truncation_sort "oracle down" demoTodos15 (by decide) (by decide)

end RSecretary
